import Mathlib

/-!
Verification of the composition root / bootstrap layer in `src/setup.rs` of
the ceresdb repository.  The Rust code builds four runtime thread pools,
selects one of two storage-engine builders from a configuration flag, wires
the engine proxy, catalog manager, function registry, query executor and
server, starts the server, blocks on a termination signal and stops the
server.  External collaborators (the engine builders, the table-based catalog
manager constructor, the function-registry bulk load, the server builder and
its start method, the log and tracing initialisers, the signal handler) are
modelled as oracles supplied through environment records; a Rust `panic!` or
`expect` is modelled as the explicit outcome `PanicOr.panic`; `Arc` sharing is
modelled as the identity on values, so two handles are shares of one object
exactly when they are equal.  Each run yields a trace of events so that the
ordering of bootstrap stages is visible to the theorems.
-/
namespace CeresSetup

/-- Reference-counted shared pointer, modelled as the identity: cloning an
`Arc` yields the very same value, so shared handles are literally equal. -/
abbrev Arc (α : Type) : Type := α

/-- Embedding of `Arc::new`. -/
@[simp] def Arc.new {α : Type} (a : α) : Arc α := a

/-- Embedding of `Arc::clone` (and of `.clone()` on an `Arc`). -/
@[simp] def Arc.clone {α : Type} (a : Arc α) : Arc α := a

/-- Runtime (thread pool) configuration: one worker-thread count per pool,
as read by `build_engine_runtimes`. -/
structure RuntimeConfig where
  read_thread_num : Nat
  write_thread_num : Nat
  meta_thread_num : Nat
  background_thread_num : Nat
deriving DecidableEq, Repr

/-- Configuration of the obkv write-ahead log; `setup.rs` reads only the
`enable` flag. -/
structure ObkvWalConfig where
  enable : Bool
deriving DecidableEq, Repr

/-- Analytic engine configuration, restricted to the part `setup.rs` reads
(the replication-log flag). -/
structure AnalyticConfig where
  obkv_wal : ObkvWalConfig
deriving DecidableEq, Repr

/-- Server configuration, restricted to the fields `setup.rs` reads. -/
structure Config where
  analytic : AnalyticConfig
  runtime : RuntimeConfig
  tracing_log_name : String
  tracing_log_dir : String
  tracing_level : String
deriving DecidableEq, Repr

/-- Worker pool as assembled by the `runtime::Builder` chain in
`build_runtime`: a worker-thread count, a diagnostic thread name, and the
flag set by `enable_all()` (all I/O and timer facilities). -/
structure Runtime where
  name : String
  worker_threads : Nat
  enable_all : Bool
deriving DecidableEq, Repr

/-- The four runtime pools of `table_engine::engine::EngineRuntimes`. -/
structure EngineRuntimes where
  read_runtime : Arc Runtime
  write_runtime : Arc Runtime
  meta_runtime : Arc Runtime
  bg_runtime : Arc Runtime
deriving DecidableEq, Repr

/-- The two concrete storage-engine builders of `analytic_engine::setup`
instantiated by `run_server`. -/
inductive EngineBuilderKind where
  | replicated
  | rocks
deriving DecidableEq, Repr

/-- Opaque handle to a built analytic storage engine, identified by an id;
because `Arc` is the identity, two handles are shares of one engine exactly
when the ids are equal. -/
abbrev AnalyticEngine := Nat

/-- The ephemeral in-memory table engine (`server::table_engine::MemoryTableEngine`). -/
structure MemoryTableEngine where
deriving DecidableEq, Repr

/-- Embedding of `server::table_engine::TableEngineProxy`: owns the memory
engine and a shared reference to the analytic engine. -/
structure TableEngineProxy where
  memory : MemoryTableEngine
  analytic : Arc AnalyticEngine
deriving DecidableEq, Repr

/-- Modelled from the spec: `catalog_impls::table_based::TableBasedManager`
is not under `src/`; per the spec the catalog's backing store is a table
hosted in the analytic engine it is given and is accessed through the engine
proxy, so the manager is modelled as retaining its two constructor
arguments. -/
structure TableBasedManager where
  engine : Arc AnalyticEngine
  proxy : Arc TableEngineProxy
deriving DecidableEq, Repr

/-- Embedding of `catalog_impls::CatalogManagerImpl` wrapping the
table-based manager. -/
structure CatalogManagerImpl where
  inner : TableBasedManager
deriving DecidableEq, Repr

/-- Embedding of `df_operator::registry::FunctionRegistryImpl`: created
empty, then populated by a fallible `load_functions()`. -/
structure FunctionRegistryImpl where
  loaded : Bool
deriving DecidableEq, Repr

/-- Embedding of `FunctionRegistryImpl::new`. -/
def FunctionRegistryImpl.new : FunctionRegistryImpl := { loaded := false }

/-- Embedding of `query_engine::executor::ExecutorImpl` (stateless handle). -/
structure ExecutorImpl where
deriving DecidableEq, Repr

/-- Embedding of `ExecutorImpl::new`. -/
def ExecutorImpl.new : ExecutorImpl := {}

/-- Dependencies accumulated by the `server::server::Builder` chain before
`build()` is called in `run_server_with_runtimes`. -/
structure ServerInputs where
  config : Config
  runtimes : Arc EngineRuntimes
  catalog_manager : CatalogManagerImpl
  query_executor : ExecutorImpl
  table_engine : Arc TableEngineProxy
  function_registry : Arc FunctionRegistryImpl
deriving DecidableEq, Repr

/-- Outcome of a Rust computation that may `panic!`: either an abnormal
process termination carrying the panic message, or a returned value. -/
inductive PanicOr (α : Type) where
  | panic (msg : String)
  | ret (value : α)
deriving DecidableEq, Repr

/-- Observable bootstrap events, in the order the code performs them.  The
`...Attempt` events mark the invocation of a fallible external operation;
the remaining events mark completed constructions and lifecycle steps. -/
inductive Event where
  | runtimeBuildAttempt (name : String) (threads : Nat)
  | engineBuildAttempt (kind : EngineBuilderKind) (runtimes : Arc EngineRuntimes)
  | engineBuilt (handle : Arc AnalyticEngine)
  | proxyCreated (proxy : Arc TableEngineProxy)
  | catalogBuildAttempt (engine : Arc AnalyticEngine) (proxy : Arc TableEngineProxy)
  | catalogBuilt (manager : CatalogManagerImpl)
  | registryCreated
  | registryLoadAttempt
  | registryLoaded
  | registryShared
  | executorCreated
  | serverBuildAttempt (inputs : ServerInputs)
  | serverBuilt
  | serverStartAttempt
  | serverStarted
  | signalReceived
  | serverStopped
deriving DecidableEq, Repr

/-- Result of a (partial or complete) bootstrap run: the trace of events it
performed and its outcome. -/
structure BootResult where
  trace : List Event
  outcome : PanicOr Unit
deriving DecidableEq, Repr

/-- Oracle for the external `runtime::Builder::build` call: `none` means the
pool allocated its worker threads, `some e` is the allocation error. -/
structure RuntimeEnv where
  buildErr : String → Nat → Option String

/-- Oracles for the external collaborators invoked by
`run_server_with_runtimes`:
`engineBuild` models `T::build` of the chosen `EngineBuilder` (returning the
engine handle or an error), `tableBasedManagerNewErr` models the failure
behaviour of `TableBasedManager::new`, `loadFunctionsErr` that of
`FunctionRegistryImpl::load_functions`, `serverBuildErr` that of
`Builder::build`, and `serverStartErr` that of `Server::start`. -/
structure BootEnv where
  engineBuild : EngineBuilderKind → AnalyticConfig → Arc EngineRuntimes →
    Except String (Arc AnalyticEngine)
  tableBasedManagerNewErr : Arc AnalyticEngine → Arc TableEngineProxy → Option String
  loadFunctionsErr : Option String
  serverBuildErr : ServerInputs → Option String
  serverStartErr : Option String

/-- Embedding of `build_runtime`: configures one pool with the given worker
thread count and diagnostic name, enables all I/O and timer facilities, and
panics if the external builder reports an allocation error. -/
def build_runtime (env : RuntimeEnv) (name : String) (threads_num : Nat) :
    PanicOr Runtime :=
  match env.buildErr name threads_num with
  | some e => .panic ("Failed to create runtime, err:" ++ e)
  | none => .ret { name := name, worker_threads := threads_num, enable_all := true }

/-- Embedding of `build_engine_runtimes`: builds the read, write, meta and
background pools in order, each from its own configured thread count,
together with the trace of pool build attempts performed. -/
def build_engine_runtimes (env : RuntimeEnv) (config : RuntimeConfig) :
    List Event × PanicOr EngineRuntimes :=
  let a1 := Event.runtimeBuildAttempt "ceres-read" config.read_thread_num
  match build_runtime env "ceres-read" config.read_thread_num with
  | .panic m => ([a1], .panic m)
  | .ret rr =>
    let a2 := Event.runtimeBuildAttempt "ceres-write" config.write_thread_num
    match build_runtime env "ceres-write" config.write_thread_num with
    | .panic m => ([a1, a2], .panic m)
    | .ret wr =>
      let a3 := Event.runtimeBuildAttempt "ceres-meta" config.meta_thread_num
      match build_runtime env "ceres-meta" config.meta_thread_num with
      | .panic m => ([a1, a2, a3], .panic m)
      | .ret mr =>
        let a4 := Event.runtimeBuildAttempt "ceres-bg" config.background_thread_num
        match build_runtime env "ceres-bg" config.background_thread_num with
        | .panic m => ([a1, a2, a3, a4], .panic m)
        | .ret br =>
          ([a1, a2, a3, a4],
           .ret { read_runtime := Arc.new rr, write_runtime := Arc.new wr,
                  meta_runtime := Arc.new mr, bg_runtime := Arc.new br })

/-- Embedding of the generic `run_server_with_runtimes::<T>`: builds the
memory engine, the analytic engine via the chosen builder, the engine proxy,
the catalog manager, the function registry, the query executor and the
server, starts the server, waits for the termination signal and stops the
server; every `unwrap_or_else(panic)` of the source aborts the run with the
corresponding message.  The signal wait and the stop call are modelled from
the spec (the `signal_handler` module and the `Server` type are not under
`src/`): blocking until an external termination signal arrives is recorded
as the `signalReceived` event, and `Server::stop` as `serverStopped`. -/
def run_server_with_runtimes (env : BootEnv) (T : EngineBuilderKind)
    (config : Config) (runtimes : Arc EngineRuntimes) : BootResult :=
  let memory : MemoryTableEngine := {}
  let analytic_config := config.analytic
  let t0 := [Event.engineBuildAttempt T (Arc.clone runtimes)]
  match env.engineBuild T analytic_config (Arc.clone runtimes) with
  | .error e =>
      { trace := t0, outcome := .panic ("Failed to setup analytic engine, err:" ++ e) }
  | .ok analytic =>
      let engine_proxy : Arc TableEngineProxy :=
        Arc.new { memory := memory, analytic := Arc.clone analytic }
      let t1 := t0 ++ [Event.engineBuilt analytic, Event.proxyCreated engine_proxy,
        Event.catalogBuildAttempt analytic (Arc.clone engine_proxy)]
      match env.tableBasedManagerNewErr analytic (Arc.clone engine_proxy) with
      | some e =>
          { trace := t1, outcome := .panic ("Failed to create catalog manager, err:" ++ e) }
      | none =>
          let catalog_manager : CatalogManagerImpl :=
            { inner := { engine := analytic, proxy := Arc.clone engine_proxy } }
          let t2 := t1 ++ [Event.catalogBuilt catalog_manager, Event.registryCreated,
            Event.registryLoadAttempt]
          match env.loadFunctionsErr with
          | some e =>
              { trace := t2,
                outcome := .panic ("Failed to create function registry, err:" ++ e) }
          | none =>
              let function_registry : Arc FunctionRegistryImpl :=
                Arc.new { loaded := true }
              let query_executor := ExecutorImpl.new
              let inputs : ServerInputs :=
                { config := config, runtimes := Arc.clone runtimes,
                  catalog_manager := catalog_manager, query_executor := query_executor,
                  table_engine := engine_proxy, function_registry := function_registry }
              let t3 := t2 ++ [Event.registryLoaded, Event.registryShared,
                Event.executorCreated, Event.serverBuildAttempt inputs]
              match env.serverBuildErr inputs with
              | some e =>
                  { trace := t3, outcome := .panic ("Failed to create server, err:" ++ e) }
              | none =>
                  let t4 := t3 ++ [Event.serverBuilt, Event.serverStartAttempt]
                  match env.serverStartErr with
                  | some e =>
                      { trace := t4,
                        outcome := .panic ("Failed to start server,, err:" ++ e) }
                  | none =>
                      { trace := t4 ++ [Event.serverStarted, Event.signalReceived,
                          Event.serverStopped],
                        outcome := .ret () }

/-- Embedding of `run_server`: builds the four runtime pools, then selects
the replicated engine builder when `config.analytic.obkv_wal.enable` is set
and the Rocks builder otherwise, and runs the generic bootstrap with the
shared runtime pool set. -/
def run_server (rtEnv : RuntimeEnv) (env : BootEnv) (config : Config) : BootResult :=
  match build_engine_runtimes rtEnv config.runtime with
  | (tr, .panic m) => { trace := tr, outcome := .panic m }
  | (tr, .ret rts) =>
      let runtimes : Arc EngineRuntimes := Arc.new rts
      let engine_runtimes := Arc.clone runtimes
      let r :=
        if config.analytic.obkv_wal.enable then
          run_server_with_runtimes env EngineBuilderKind.replicated config engine_runtimes
        else
          run_server_with_runtimes env EngineBuilderKind.rocks config engine_runtimes
      { trace := tr ++ r.trace, outcome := r.outcome }

/-- Runtime log level switch returned by `server::logger::init_log`. -/
structure RuntimeLevel where
  level : String
deriving DecidableEq, Repr

/-- Oracle for the external `server::logger::init_log`. -/
structure LogEnv where
  init_log : Config → Except String RuntimeLevel

/-- Embedding of `setup_log`: returns the runtime log level switch on
success; on failure the source calls `expect("Failed to init log.")`, which
panics with that message followed by the underlying error. -/
def setup_log (env : LogEnv) (config : Config) : PanicOr RuntimeLevel :=
  match env.init_log config with
  | .ok level => .ret level
  | .error e => .panic ("Failed to init log.: " ++ e)

/-- Rotation policies of `tracing_appender::rolling::Rotation`. -/
inductive Rotation where
  | NEVER
  | MINUTELY
  | HOURLY
  | DAILY
deriving DecidableEq, Repr

/-- Modelled from the spec: `tracing_util::init_tracing_with_file` is
external (logging/tracing configuration is out of scope there); the model
records the arguments the setup code hands to the tracing file appender. -/
structure TracingFileInit where
  log_name : String
  log_dir : String
  level : String
  rotation : Rotation
deriving DecidableEq, Repr

/-- Recording embedding of `tracing_util::init_tracing_with_file`. -/
def init_tracing_with_file (name dir level : String) (rotation : Rotation) :
    TracingFileInit :=
  { log_name := name, log_dir := dir, level := level, rotation := rotation }

/-- Embedding of `setup_tracing`: initialises the tracing file appender from
the configured name, directory and level, with rotation fixed to `NEVER`. -/
def setup_tracing (config : Config) : TracingFileInit :=
  init_tracing_with_file config.tracing_log_name config.tracing_log_dir
    config.tracing_level Rotation.NEVER

/-- Diagnostic name of the pool a `runtimeBuildAttempt` event refers to. -/
def Event.poolAttemptName : Event → Option String
  | .runtimeBuildAttempt n _ => some n
  | _ => none

/-- Whether an event is an invocation of the storage-engine builder. -/
def Event.isEngineBuildAttempt : Event → Bool
  | .engineBuildAttempt _ _ => true
  | _ => false

/-- Whether an event is an invocation of the catalog manager constructor. -/
def Event.isCatalogBuildAttempt : Event → Bool
  | .catalogBuildAttempt _ _ => true
  | _ => false

/-- Whether an event is an invocation of the registry bulk load. -/
def Event.isRegistryLoadAttempt : Event → Bool
  | .registryLoadAttempt => true
  | _ => false

/-- Whether an event is an invocation of the server builder. -/
def Event.isServerBuildAttempt : Event → Bool
  | .serverBuildAttempt _ => true
  | _ => false

/-- Whether an event is an invocation of `Server::start`. -/
def Event.isServerStartAttempt : Event → Bool
  | .serverStartAttempt => true
  | _ => false

/-- Whether an event is the pool build attempt of the named pool. -/
def Event.isPoolAttemptNamed (name : String) : Event → Bool
  | .runtimeBuildAttempt n _ => n == name
  | _ => false

/-- No bootstrap stage is attempted more than once in the trace: each of the
four pool builds, the engine build, the catalog build, the registry load,
the server build and the server start occurs at most once. -/
def noRetry (tr : List Event) : Prop :=
  tr.countP (Event.isPoolAttemptNamed "ceres-read") ≤ 1
  ∧ tr.countP (Event.isPoolAttemptNamed "ceres-write") ≤ 1
  ∧ tr.countP (Event.isPoolAttemptNamed "ceres-meta") ≤ 1
  ∧ tr.countP (Event.isPoolAttemptNamed "ceres-bg") ≤ 1
  ∧ tr.countP Event.isEngineBuildAttempt ≤ 1
  ∧ tr.countP Event.isCatalogBuildAttempt ≤ 1
  ∧ tr.countP Event.isRegistryLoadAttempt ≤ 1
  ∧ tr.countP Event.isServerBuildAttempt ≤ 1
  ∧ tr.countP Event.isServerStartAttempt ≤ 1

/-- The runtime pool set produced when every pool allocation succeeds: the
four pools with their diagnostic names, configured thread counts and all
I/O and timer facilities enabled. -/
def builtRuntimes (config : RuntimeConfig) : EngineRuntimes where
  read_runtime :=
    { name := "ceres-read", worker_threads := config.read_thread_num, enable_all := true }
  write_runtime :=
    { name := "ceres-write", worker_threads := config.write_thread_num, enable_all := true }
  meta_runtime :=
    { name := "ceres-meta", worker_threads := config.meta_thread_num, enable_all := true }
  bg_runtime :=
    { name := "ceres-bg", worker_threads := config.background_thread_num, enable_all := true }

/-- Shorthand: which engine builder `run_server` selects for a configuration. -/
def selectedKind (config : Config) : EngineBuilderKind :=
  if config.analytic.obkv_wal.enable then EngineBuilderKind.replicated
  else EngineBuilderKind.rocks

/-- Shorthand: the engine proxy built from a successfully built engine handle. -/
def engineProxyOf (a : Arc AnalyticEngine) : Arc TableEngineProxy :=
  Arc.new { memory := {}, analytic := Arc.clone a }

/-- Shorthand: the catalog manager built from a successfully built engine handle. -/
def catalogManagerOf (a : Arc AnalyticEngine) : CatalogManagerImpl :=
  { inner := { engine := a, proxy := Arc.clone (engineProxyOf a) } }

/-- Shorthand: the dependencies handed to the server builder. -/
def serverBuilderInputs (config : Config) (rts : Arc EngineRuntimes)
    (a : Arc AnalyticEngine) : ServerInputs :=
  { config := config, runtimes := Arc.clone rts, catalog_manager := catalogManagerOf a,
    query_executor := ExecutorImpl.new, table_engine := engineProxyOf a,
    function_registry := Arc.new { loaded := true } }

/-- Trace up to and including the engine build attempt. -/
def traceEngine (T : EngineBuilderKind) (rts : Arc EngineRuntimes) : List Event :=
  [Event.engineBuildAttempt T rts]

/-- Trace up to and including the catalog build attempt. -/
def traceCatalog (T : EngineBuilderKind) (rts : Arc EngineRuntimes)
    (a : Arc AnalyticEngine) : List Event :=
  traceEngine T rts ++ [Event.engineBuilt a, Event.proxyCreated (engineProxyOf a),
    Event.catalogBuildAttempt a (engineProxyOf a)]

/-- Trace up to and including the registry load attempt. -/
def traceRegistry (T : EngineBuilderKind) (rts : Arc EngineRuntimes)
    (a : Arc AnalyticEngine) : List Event :=
  traceCatalog T rts a ++ [Event.catalogBuilt (catalogManagerOf a),
    Event.registryCreated, Event.registryLoadAttempt]

/-- Trace up to and including the server build attempt. -/
def traceServerBuild (config : Config) (T : EngineBuilderKind)
    (rts : Arc EngineRuntimes) (a : Arc AnalyticEngine) : List Event :=
  traceRegistry T rts a ++ [Event.registryLoaded, Event.registryShared,
    Event.executorCreated, Event.serverBuildAttempt (serverBuilderInputs config rts a)]

/-- Trace up to and including the server start attempt. -/
def traceServerStart (config : Config) (T : EngineBuilderKind)
    (rts : Arc EngineRuntimes) (a : Arc AnalyticEngine) : List Event :=
  traceServerBuild config T rts a ++ [Event.serverBuilt, Event.serverStartAttempt]

/-- Trace of a complete successful run of `run_server_with_runtimes`. -/
def traceComplete (config : Config) (T : EngineBuilderKind)
    (rts : Arc EngineRuntimes) (a : Arc AnalyticEngine) : List Event :=
  traceServerStart config T rts a ++ [Event.serverStarted, Event.signalReceived,
    Event.serverStopped]

/-- Trace of the four pool build attempts. -/
def poolAttemptsTrace (config : RuntimeConfig) : List Event :=
  [Event.runtimeBuildAttempt "ceres-read" config.read_thread_num,
   Event.runtimeBuildAttempt "ceres-write" config.write_thread_num,
   Event.runtimeBuildAttempt "ceres-meta" config.meta_thread_num,
   Event.runtimeBuildAttempt "ceres-bg" config.background_thread_num]

/-- Concrete pool environment in which every allocation succeeds. -/
def rtOk : RuntimeEnv := ⟨fun _ _ => none⟩

/-- Concrete pool environment in which the meta pool fails to allocate. -/
def rtMetaFail : RuntimeEnv :=
  ⟨fun name _ => if name == "ceres-meta" then some "oom" else none⟩

/-- Concrete bootstrap environment in which every stage succeeds and the
engine builder returns handle `7`. -/
def envOk : BootEnv :=
  { engineBuild := fun _ _ _ => .ok 7,
    tableBasedManagerNewErr := fun _ _ => none,
    loadFunctionsErr := none,
    serverBuildErr := fun _ => none,
    serverStartErr := none }

/-- Concrete bootstrap environment whose engine builder always fails. -/
def envEngineFail : BootEnv :=
  { engineBuild := fun _ _ _ => .error "unreachable",
    tableBasedManagerNewErr := fun _ _ => none,
    loadFunctionsErr := none,
    serverBuildErr := fun _ => none,
    serverStartErr := none }

/-- Concrete bootstrap environment whose registry bulk load fails. -/
def envRegistryFail : BootEnv :=
  { engineBuild := fun _ _ _ => .ok 7,
    tableBasedManagerNewErr := fun _ _ => none,
    loadFunctionsErr := some "boom",
    serverBuildErr := fun _ => none,
    serverStartErr := none }

/-- Concrete bootstrap environment in which the server start fails. -/
def envStartFail : BootEnv :=
  { engineBuild := fun _ _ _ => .ok 7,
    tableBasedManagerNewErr := fun _ _ => none,
    loadFunctionsErr := none,
    serverBuildErr := fun _ => none,
    serverStartErr := some "bind" }

/-- Concrete configuration with the replication log disabled. -/
def cfgF : Config :=
  { analytic := { obkv_wal := { enable := false } },
    runtime := { read_thread_num := 1, write_thread_num := 2, meta_thread_num := 3,
                 background_thread_num := 4 },
    tracing_log_name := "t", tracing_log_dir := "d", tracing_level := "info" }

/-- Concrete configuration with the replication log enabled. -/
def cfgT : Config :=
  { analytic := { obkv_wal := { enable := true } },
    runtime := { read_thread_num := 1, write_thread_num := 2, meta_thread_num := 3,
                 background_thread_num := 4 },
    tracing_log_name := "t", tracing_log_dir := "d", tracing_level := "info" }

/-- Concrete log environment that succeeds with level "info". -/
def logOk : LogEnv := ⟨fun _ => .ok { level := "info" }⟩

/-- Concrete log environment that fails with error "io". -/
def logFail : LogEnv := ⟨fun _ => .error "io"⟩

/-- Case analysis of `run_server_with_runtimes`: the run fails at exactly one
of the five fallible stages with the corresponding panic message and partial
trace, or completes with the full trace. -/
lemma rswr_cases (env : BootEnv) (T : EngineBuilderKind) (config : Config)
    (rts : Arc EngineRuntimes) :
    (∃ e, env.engineBuild T config.analytic rts = .error e ∧
      run_server_with_runtimes env T config rts =
        ⟨traceEngine T rts, .panic ("Failed to setup analytic engine, err:" ++ e)⟩)
  ∨ (∃ a e, env.engineBuild T config.analytic rts = .ok a ∧
      env.tableBasedManagerNewErr a (engineProxyOf a) = some e ∧
      run_server_with_runtimes env T config rts =
        ⟨traceCatalog T rts a, .panic ("Failed to create catalog manager, err:" ++ e)⟩)
  ∨ (∃ a e, env.engineBuild T config.analytic rts = .ok a ∧
      env.tableBasedManagerNewErr a (engineProxyOf a) = none ∧
      env.loadFunctionsErr = some e ∧
      run_server_with_runtimes env T config rts =
        ⟨traceRegistry T rts a, .panic ("Failed to create function registry, err:" ++ e)⟩)
  ∨ (∃ a e, env.engineBuild T config.analytic rts = .ok a ∧
      env.tableBasedManagerNewErr a (engineProxyOf a) = none ∧
      env.loadFunctionsErr = none ∧
      env.serverBuildErr (serverBuilderInputs config rts a) = some e ∧
      run_server_with_runtimes env T config rts =
        ⟨traceServerBuild config T rts a, .panic ("Failed to create server, err:" ++ e)⟩)
  ∨ (∃ a e, env.engineBuild T config.analytic rts = .ok a ∧
      env.tableBasedManagerNewErr a (engineProxyOf a) = none ∧
      env.loadFunctionsErr = none ∧
      env.serverBuildErr (serverBuilderInputs config rts a) = none ∧
      env.serverStartErr = some e ∧
      run_server_with_runtimes env T config rts =
        ⟨traceServerStart config T rts a, .panic ("Failed to start server,, err:" ++ e)⟩)
  ∨ (∃ a, env.engineBuild T config.analytic rts = .ok a ∧
      env.tableBasedManagerNewErr a (engineProxyOf a) = none ∧
      env.loadFunctionsErr = none ∧
      env.serverBuildErr (serverBuilderInputs config rts a) = none ∧
      env.serverStartErr = none ∧
      run_server_with_runtimes env T config rts = ⟨traceComplete config T rts a, .ret ()⟩) := by
  unfold run_server_with_runtimes
  simp only [Arc.clone, Arc.new]
  split
  next e heq => exact Or.inl ⟨e, heq, rfl⟩
  next a heq =>
    split
    next e heq2 => exact Or.inr (Or.inl ⟨a, e, heq, heq2, rfl⟩)
    next heq2 =>
      split
      next e heq3 => exact Or.inr (Or.inr (Or.inl ⟨a, e, heq, heq2, heq3, rfl⟩))
      next heq3 =>
        split
        next e heq4 =>
          exact Or.inr (Or.inr (Or.inr (Or.inl ⟨a, e, heq, heq2, heq3, heq4, rfl⟩)))
        next heq4 =>
          split
          next e heq5 =>
            exact Or.inr (Or.inr (Or.inr (Or.inr (Or.inl
              ⟨a, e, heq, heq2, heq3, heq4, heq5, rfl⟩))))
          next heq5 =>
            exact Or.inr (Or.inr (Or.inr (Or.inr (Or.inr
              ⟨a, heq, heq2, heq3, heq4, heq5, rfl⟩))))

/-- Case analysis of `build_engine_runtimes`: it fails at the first pool
whose allocation fails, with that pool's panic message and the trace of
attempts made so far, or returns the four configured pools. -/
lemma build_engine_runtimes_cases (rtEnv : RuntimeEnv) (config : RuntimeConfig) :
    (∃ e, rtEnv.buildErr "ceres-read" config.read_thread_num = some e ∧
      build_engine_runtimes rtEnv config =
        ((poolAttemptsTrace config).take 1, .panic ("Failed to create runtime, err:" ++ e)))
  ∨ (∃ e, rtEnv.buildErr "ceres-read" config.read_thread_num = none ∧
      rtEnv.buildErr "ceres-write" config.write_thread_num = some e ∧
      build_engine_runtimes rtEnv config =
        ((poolAttemptsTrace config).take 2, .panic ("Failed to create runtime, err:" ++ e)))
  ∨ (∃ e, rtEnv.buildErr "ceres-read" config.read_thread_num = none ∧
      rtEnv.buildErr "ceres-write" config.write_thread_num = none ∧
      rtEnv.buildErr "ceres-meta" config.meta_thread_num = some e ∧
      build_engine_runtimes rtEnv config =
        ((poolAttemptsTrace config).take 3, .panic ("Failed to create runtime, err:" ++ e)))
  ∨ (∃ e, rtEnv.buildErr "ceres-read" config.read_thread_num = none ∧
      rtEnv.buildErr "ceres-write" config.write_thread_num = none ∧
      rtEnv.buildErr "ceres-meta" config.meta_thread_num = none ∧
      rtEnv.buildErr "ceres-bg" config.background_thread_num = some e ∧
      build_engine_runtimes rtEnv config =
        (poolAttemptsTrace config, .panic ("Failed to create runtime, err:" ++ e)))
  ∨ (rtEnv.buildErr "ceres-read" config.read_thread_num = none ∧
      rtEnv.buildErr "ceres-write" config.write_thread_num = none ∧
      rtEnv.buildErr "ceres-meta" config.meta_thread_num = none ∧
      rtEnv.buildErr "ceres-bg" config.background_thread_num = none ∧
      build_engine_runtimes rtEnv config =
        (poolAttemptsTrace config, .ret (builtRuntimes config))) := by
  cases h1 : rtEnv.buildErr "ceres-read" config.read_thread_num with
  | some e =>
      exact Or.inl ⟨e, rfl,
        by simp [build_engine_runtimes, build_runtime, h1, poolAttemptsTrace]⟩
  | none =>
  cases h2 : rtEnv.buildErr "ceres-write" config.write_thread_num with
  | some e =>
      exact Or.inr (Or.inl ⟨e, rfl, rfl,
        by simp [build_engine_runtimes, build_runtime, h1, h2, poolAttemptsTrace]⟩)
  | none =>
  cases h3 : rtEnv.buildErr "ceres-meta" config.meta_thread_num with
  | some e =>
      exact Or.inr (Or.inr (Or.inl ⟨e, rfl, rfl, rfl,
        by simp [build_engine_runtimes, build_runtime, h1, h2, h3, poolAttemptsTrace]⟩))
  | none =>
  cases h4 : rtEnv.buildErr "ceres-bg" config.background_thread_num with
  | some e =>
      exact Or.inr (Or.inr (Or.inr (Or.inl ⟨e, rfl, rfl, rfl, rfl,
        by simp [build_engine_runtimes, build_runtime, h1, h2, h3, h4, poolAttemptsTrace]⟩)))
  | none =>
      exact Or.inr (Or.inr (Or.inr (Or.inr ⟨rfl, rfl, rfl, rfl,
        by simp [build_engine_runtimes, build_runtime, h1, h2, h3, h4, poolAttemptsTrace,
          builtRuntimes]⟩)))

/-- Decomposition of `run_server`: either the pool construction panics and
nothing else runs, or the generic bootstrap runs with the selected builder
kind on the shared pool set and its trace is appended to the pool trace. -/
lemma run_server_cases (rtEnv : RuntimeEnv) (env : BootEnv) (config : Config) :
    (∃ tr m, build_engine_runtimes rtEnv config.runtime = (tr, .panic m) ∧
      run_server rtEnv env config = ⟨tr, .panic m⟩)
  ∨ (build_engine_runtimes rtEnv config.runtime =
        (poolAttemptsTrace config.runtime, .ret (builtRuntimes config.runtime)) ∧
      run_server rtEnv env config =
        ⟨poolAttemptsTrace config.runtime ++
           (run_server_with_runtimes env (selectedKind config) config
             (builtRuntimes config.runtime)).trace,
         (run_server_with_runtimes env (selectedKind config) config
           (builtRuntimes config.runtime)).outcome⟩) := by
  rcases build_engine_runtimes_cases rtEnv config.runtime with
    ⟨e, h1, heq⟩ | ⟨e, h1, h2, heq⟩ | ⟨e, h1, h2, h3, heq⟩ |
    ⟨e, h1, h2, h3, h4, heq⟩ | ⟨h1, h2, h3, h4, heq⟩
  · exact Or.inl ⟨_, _, heq, by simp [run_server, heq]⟩
  · exact Or.inl ⟨_, _, heq, by simp [run_server, heq]⟩
  · exact Or.inl ⟨_, _, heq, by simp [run_server, heq]⟩
  · exact Or.inl ⟨_, _, heq, by simp [run_server, heq]⟩
  · refine Or.inr ⟨heq, ?_⟩
    by_cases hb : config.analytic.obkv_wal.enable
    · simp [run_server, heq, hb, selectedKind]
    · simp [run_server, heq, hb, selectedKind]

/-- Equation: the run when the engine builder fails. -/
lemma rswr_eq_engine_err (env : BootEnv) (T : EngineBuilderKind) (config : Config)
    (rts : Arc EngineRuntimes) (e : String)
    (h : env.engineBuild T config.analytic rts = .error e) :
    run_server_with_runtimes env T config rts =
      ⟨traceEngine T rts, .panic ("Failed to setup analytic engine, err:" ++ e)⟩ := by
  simp [run_server_with_runtimes, h, traceEngine]

/-- Equation: the run when the engine is built but the catalog manager fails. -/
lemma rswr_eq_catalog_err (env : BootEnv) (T : EngineBuilderKind) (config : Config)
    (rts : Arc EngineRuntimes) (a : Arc AnalyticEngine) (e : String)
    (h1 : env.engineBuild T config.analytic rts = .ok a)
    (h2 : env.tableBasedManagerNewErr a (engineProxyOf a) = some e) :
    run_server_with_runtimes env T config rts =
      ⟨traceCatalog T rts a, .panic ("Failed to create catalog manager, err:" ++ e)⟩ := by
  simp [engineProxyOf] at h2
  simp [run_server_with_runtimes, h1, h2, traceCatalog, traceEngine, engineProxyOf]

/-- Equation: the run when the registry bulk load fails. -/
lemma rswr_eq_registry_err (env : BootEnv) (T : EngineBuilderKind) (config : Config)
    (rts : Arc EngineRuntimes) (a : Arc AnalyticEngine) (e : String)
    (h1 : env.engineBuild T config.analytic rts = .ok a)
    (h2 : env.tableBasedManagerNewErr a (engineProxyOf a) = none)
    (h3 : env.loadFunctionsErr = some e) :
    run_server_with_runtimes env T config rts =
      ⟨traceRegistry T rts a, .panic ("Failed to create function registry, err:" ++ e)⟩ := by
  simp [engineProxyOf] at h2
  simp [run_server_with_runtimes, h1, h2, h3, traceRegistry, traceCatalog, traceEngine,
    engineProxyOf, catalogManagerOf]

/-- Equation: the run when the server builder fails. -/
lemma rswr_eq_server_build_err (env : BootEnv) (T : EngineBuilderKind) (config : Config)
    (rts : Arc EngineRuntimes) (a : Arc AnalyticEngine) (e : String)
    (h1 : env.engineBuild T config.analytic rts = .ok a)
    (h2 : env.tableBasedManagerNewErr a (engineProxyOf a) = none)
    (h3 : env.loadFunctionsErr = none)
    (h4 : env.serverBuildErr (serverBuilderInputs config rts a) = some e) :
    run_server_with_runtimes env T config rts =
      ⟨traceServerBuild config T rts a, .panic ("Failed to create server, err:" ++ e)⟩ := by
  simp [engineProxyOf] at h2
  simp [serverBuilderInputs, catalogManagerOf, engineProxyOf, ExecutorImpl.new] at h4
  simp [run_server_with_runtimes, h1, h2, h3, h4, traceServerBuild, traceRegistry,
    traceCatalog, traceEngine, engineProxyOf, catalogManagerOf, serverBuilderInputs,
    ExecutorImpl.new]

/-- Equation: the run when the server start fails. -/
lemma rswr_eq_server_start_err (env : BootEnv) (T : EngineBuilderKind) (config : Config)
    (rts : Arc EngineRuntimes) (a : Arc AnalyticEngine) (e : String)
    (h1 : env.engineBuild T config.analytic rts = .ok a)
    (h2 : env.tableBasedManagerNewErr a (engineProxyOf a) = none)
    (h3 : env.loadFunctionsErr = none)
    (h4 : env.serverBuildErr (serverBuilderInputs config rts a) = none)
    (h5 : env.serverStartErr = some e) :
    run_server_with_runtimes env T config rts =
      ⟨traceServerStart config T rts a, .panic ("Failed to start server,, err:" ++ e)⟩ := by
  simp [engineProxyOf] at h2
  simp [serverBuilderInputs, catalogManagerOf, engineProxyOf, ExecutorImpl.new] at h4
  simp [run_server_with_runtimes, h1, h2, h3, h4, h5, traceServerStart, traceServerBuild,
    traceRegistry, traceCatalog, traceEngine, engineProxyOf, catalogManagerOf,
    serverBuilderInputs, ExecutorImpl.new]

/-- Equation: the fully successful run. -/
lemma rswr_eq_success (env : BootEnv) (T : EngineBuilderKind) (config : Config)
    (rts : Arc EngineRuntimes) (a : Arc AnalyticEngine)
    (h1 : env.engineBuild T config.analytic rts = .ok a)
    (h2 : env.tableBasedManagerNewErr a (engineProxyOf a) = none)
    (h3 : env.loadFunctionsErr = none)
    (h4 : env.serverBuildErr (serverBuilderInputs config rts a) = none)
    (h5 : env.serverStartErr = none) :
    run_server_with_runtimes env T config rts =
      ⟨traceComplete config T rts a, .ret ()⟩ := by
  simp [engineProxyOf] at h2
  simp [serverBuilderInputs, catalogManagerOf, engineProxyOf, ExecutorImpl.new] at h4
  simp [run_server_with_runtimes, h1, h2, h3, h4, h5, traceComplete, traceServerStart,
    traceServerBuild, traceRegistry, traceCatalog, traceEngine, engineProxyOf,
    catalogManagerOf, serverBuilderInputs, ExecutorImpl.new]

/-- Membership helper: the only engine build attempt recorded by the generic
bootstrap names exactly the builder kind and pool set it was given. -/
lemma rswr_mem_engineBuildAttempt (env : BootEnv) (T : EngineBuilderKind) (config : Config)
    (rts : Arc EngineRuntimes) (k : EngineBuilderKind) (r2 : Arc EngineRuntimes)
    (hmem : Event.engineBuildAttempt k r2 ∈ (run_server_with_runtimes env T config rts).trace) :
    k = T ∧ r2 = rts := by
  rcases rswr_cases env T config rts with ⟨e, h1, heq⟩ | ⟨a, e, h1, h2, heq⟩ |
    ⟨a, e, h1, h2, h3, heq⟩ | ⟨a, e, h1, h2, h3, h4, heq⟩ |
    ⟨a, e, h1, h2, h3, h4, h5, heq⟩ | ⟨a, h1, h2, h3, h4, h5, heq⟩ <;>
  rw [heq] at hmem <;>
  simp [traceEngine, traceCatalog, traceRegistry, traceServerBuild, traceServerStart,
    traceComplete] at hmem <;>
  exact ⟨hmem.1, hmem.2⟩

/-- Count helper: the generic bootstrap invokes the engine builder at most
once. -/
lemma rswr_countP_engine_le_one (env : BootEnv) (T : EngineBuilderKind) (config : Config)
    (rts : Arc EngineRuntimes) :
    (run_server_with_runtimes env T config rts).trace.countP Event.isEngineBuildAttempt ≤ 1 := by
  rcases rswr_cases env T config rts with ⟨e, h1, heq⟩ | ⟨a, e, h1, h2, heq⟩ |
    ⟨a, e, h1, h2, h3, heq⟩ | ⟨a, e, h1, h2, h3, h4, heq⟩ |
    ⟨a, e, h1, h2, h3, h4, h5, heq⟩ | ⟨a, h1, h2, h3, h4, h5, heq⟩ <;>
  rw [heq] <;>
  simp [traceEngine, traceCatalog, traceRegistry, traceServerBuild, traceServerStart,
    traceComplete, Event.isEngineBuildAttempt, List.countP_cons, List.countP_append]

/-- Shape helper: when the pool construction panics, the trace so far is a
prefix of the four pool build attempts. -/
lemma build_panic_trace (rtEnv : RuntimeEnv) (cfg : RuntimeConfig) (tr : List Event)
    (m : String) (h : build_engine_runtimes rtEnv cfg = (tr, .panic m)) :
    tr = (poolAttemptsTrace cfg).take 1 ∨ tr = (poolAttemptsTrace cfg).take 2 ∨
    tr = (poolAttemptsTrace cfg).take 3 ∨ tr = poolAttemptsTrace cfg := by
  rcases build_engine_runtimes_cases rtEnv cfg with ⟨e, h1, heq⟩ | ⟨e, h1, h2, heq⟩ |
    ⟨e, h1, h2, h3, heq⟩ | ⟨e, h1, h2, h3, h4, heq⟩ | ⟨h1, h2, h3, h4, heq⟩ <;>
  rw [h] at heq <;> simp [Prod.ext_iff] at heq
  · exact Or.inl heq.1
  · exact Or.inr (Or.inl heq.1)
  · exact Or.inr (Or.inr (Or.inl heq.1))
  · exact Or.inr (Or.inr (Or.inr heq.1))

/-- Helper: with every pool allocation succeeding, the pool construction
returns the four configured pools and the four attempt events. -/
lemma build_ok_of_all_none (rtEnv : RuntimeEnv) (cfg : RuntimeConfig)
    (hp : ∀ n t, rtEnv.buildErr n t = none) :
    build_engine_runtimes rtEnv cfg = (poolAttemptsTrace cfg, .ret (builtRuntimes cfg)) := by
  rcases build_engine_runtimes_cases rtEnv cfg with ⟨e, h1, heq⟩ | ⟨e, h1, h2, heq⟩ |
    ⟨e, h1, h2, h3, heq⟩ | ⟨e, h1, h2, h3, h4, heq⟩ | ⟨h1, h2, h3, h4, heq⟩
  · rw [hp] at h1; cases h1
  · rw [hp] at h2; cases h2
  · rw [hp] at h3; cases h3
  · rw [hp] at h4; cases h4
  · exact heq

/-- Helper: decomposition of `run_server` when all four pools allocate. -/
lemma run_server_eq_of_pools_ok (rtEnv : RuntimeEnv) (env : BootEnv) (config : Config)
    (hp : ∀ n t, rtEnv.buildErr n t = none) :
    run_server rtEnv env config =
      ⟨poolAttemptsTrace config.runtime ++
         (run_server_with_runtimes env (selectedKind config) config
           (builtRuntimes config.runtime)).trace,
       (run_server_with_runtimes env (selectedKind config) config
         (builtRuntimes config.runtime)).outcome⟩ := by
  rcases run_server_cases rtEnv env config with ⟨tr, m, hb, hr⟩ | ⟨hb, hr⟩
  · rw [build_ok_of_all_none rtEnv config.runtime hp] at hb
    simp [Prod.ext_iff] at hb
  · exact hr

/-- Helper: no bootstrap stage is ever attempted twice, in any run. -/
lemma noRetry_run_server (rtEnv : RuntimeEnv) (env : BootEnv) (config : Config) :
    noRetry (run_server rtEnv env config).trace := by
  rcases run_server_cases rtEnv env config with ⟨tr, m, hb, hr⟩ | ⟨hb, hr⟩
  · rw [hr]
    rcases build_panic_trace rtEnv config.runtime tr m hb with h | h | h | h <;>
      subst h <;>
      simp [noRetry, poolAttemptsTrace, List.countP_cons, Event.isPoolAttemptNamed,
        Event.isEngineBuildAttempt, Event.isCatalogBuildAttempt,
        Event.isRegistryLoadAttempt, Event.isServerBuildAttempt,
        Event.isServerStartAttempt]
  · rw [hr]
    rcases rswr_cases env (selectedKind config) config (builtRuntimes config.runtime) with
      ⟨e, h1, heq⟩ | ⟨a, e, h1, h2, heq⟩ | ⟨a, e, h1, h2, h3, heq⟩ |
      ⟨a, e, h1, h2, h3, h4, heq⟩ | ⟨a, e, h1, h2, h3, h4, h5, heq⟩ |
      ⟨a, h1, h2, h3, h4, h5, heq⟩ <;> rw [heq] <;>
      simp [noRetry, poolAttemptsTrace, traceComplete, traceServerStart, traceServerBuild,
        traceRegistry, traceCatalog, traceEngine, List.countP_cons, List.countP_append,
        Event.isPoolAttemptNamed, Event.isEngineBuildAttempt, Event.isCatalogBuildAttempt,
        Event.isRegistryLoadAttempt, Event.isServerBuildAttempt, Event.isServerStartAttempt]

/-- C1: for every configuration exactly one storage-engine builder variant is
selected: the replicated builder when `config.analytic.obkv_wal.enable` is
true, the Rocks builder otherwise; the engine builder is invoked at most once
per run; and the generic bootstrap depends on the chosen variant only through
the result of its `build` call (identical outcome and identical trace apart
from the attempt marker whenever the two builders answer identically). -/
theorem claim_C1_storage_engine_builder_selection
    (rtEnv : RuntimeEnv) (env : BootEnv) (config : Config) :
    (∀ k rts, Event.engineBuildAttempt k rts ∈ (run_server rtEnv env config).trace →
      k = if config.analytic.obkv_wal.enable then EngineBuilderKind.replicated
          else EngineBuilderKind.rocks)
    ∧ (run_server rtEnv env config).trace.countP Event.isEngineBuildAttempt ≤ 1
    ∧ (∀ k1 k2 rts,
        env.engineBuild k1 config.analytic rts = env.engineBuild k2 config.analytic rts →
        (run_server_with_runtimes env k1 config rts).outcome
          = (run_server_with_runtimes env k2 config rts).outcome
        ∧ (run_server_with_runtimes env k1 config rts).trace.filter
            (fun ev => !ev.isEngineBuildAttempt)
          = (run_server_with_runtimes env k2 config rts).trace.filter
            (fun ev => !ev.isEngineBuildAttempt)) := by
  refine ⟨?_, ?_, ?_⟩
  · intro k rts hmem
    rcases run_server_cases rtEnv env config with ⟨tr, m, hb, hr⟩ | ⟨hb, hr⟩
    · rw [hr] at hmem
      rcases build_panic_trace rtEnv config.runtime tr m hb with h | h | h | h <;>
        subst h <;> simp [poolAttemptsTrace] at hmem
    · rw [hr] at hmem
      simp only [List.mem_append] at hmem
      rcases hmem with hmem | hmem
      · simp [poolAttemptsTrace] at hmem
      · exact (rswr_mem_engineBuildAttempt env (selectedKind config) config
          (builtRuntimes config.runtime) k rts hmem).1
  · rcases run_server_cases rtEnv env config with ⟨tr, m, hb, hr⟩ | ⟨hb, hr⟩
    · rw [hr]
      rcases build_panic_trace rtEnv config.runtime tr m hb with h | h | h | h <;>
        subst h <;>
        simp [poolAttemptsTrace, Event.isEngineBuildAttempt, List.countP_cons]
    · rw [hr]
      simp only [List.countP_append]
      have h0 : (poolAttemptsTrace config.runtime).countP Event.isEngineBuildAttempt = 0 := by
        simp [poolAttemptsTrace, Event.isEngineBuildAttempt, List.countP_cons]
      rw [h0]
      simpa using rswr_countP_engine_le_one env (selectedKind config) config
        (builtRuntimes config.runtime)
  · intro k1 k2 rts hEq
    rcases hE : env.engineBuild k1 config.analytic rts with e | a
    · have hE2 : env.engineBuild k2 config.analytic rts = .error e := hEq.symm.trans hE
      rw [rswr_eq_engine_err env k1 config rts e hE,
        rswr_eq_engine_err env k2 config rts e hE2]
      simp [traceEngine, Event.isEngineBuildAttempt]
    · have hE2 : env.engineBuild k2 config.analytic rts = .ok a := hEq.symm.trans hE
      rcases hC : env.tableBasedManagerNewErr a (engineProxyOf a) with _ | e
      · rcases hL : env.loadFunctionsErr with _ | e
        · rcases hS : env.serverBuildErr (serverBuilderInputs config rts a) with _ | e
          · rcases hT : env.serverStartErr with _ | e
            · rw [rswr_eq_success env k1 config rts a hE hC hL hS hT,
                rswr_eq_success env k2 config rts a hE2 hC hL hS hT]
              simp [traceComplete, traceServerStart, traceServerBuild, traceRegistry,
                traceCatalog, traceEngine, Event.isEngineBuildAttempt]
            · rw [rswr_eq_server_start_err env k1 config rts a e hE hC hL hS hT,
                rswr_eq_server_start_err env k2 config rts a e hE2 hC hL hS hT]
              simp [traceServerStart, traceServerBuild, traceRegistry, traceCatalog,
                traceEngine, Event.isEngineBuildAttempt]
          · rw [rswr_eq_server_build_err env k1 config rts a e hE hC hL hS,
              rswr_eq_server_build_err env k2 config rts a e hE2 hC hL hS]
            simp [traceServerBuild, traceRegistry, traceCatalog, traceEngine,
              Event.isEngineBuildAttempt]
        · rw [rswr_eq_registry_err env k1 config rts a e hE hC hL,
            rswr_eq_registry_err env k2 config rts a e hE2 hC hL]
          simp [traceRegistry, traceCatalog, traceEngine, Event.isEngineBuildAttempt]
      · rw [rswr_eq_catalog_err env k1 config rts a e hE hC,
          rswr_eq_catalog_err env k2 config rts a e hE2 hC]
        simp [traceCatalog, traceEngine, Event.isEngineBuildAttempt]

theorem claim_C1_storage_engine_builder_selection_witness :
    EngineBuilderKind.replicated =
      (if cfgT.analytic.obkv_wal.enable then EngineBuilderKind.replicated
       else EngineBuilderKind.rocks)
    ∧ (run_server_with_runtimes envOk EngineBuilderKind.replicated cfgT
        (builtRuntimes cfgT.runtime)).outcome
      = (run_server_with_runtimes envOk EngineBuilderKind.rocks cfgT
        (builtRuntimes cfgT.runtime)).outcome :=
  ⟨(claim_C1_storage_engine_builder_selection rtOk envOk cfgT).1
      EngineBuilderKind.replicated (builtRuntimes cfgT.runtime) (by decide),
   ((claim_C1_storage_engine_builder_selection rtOk envOk cfgT).2.2
      EngineBuilderKind.replicated EngineBuilderKind.rocks (builtRuntimes cfgT.runtime)
      rfl).1⟩

/-- C2: under successful oracles the bootstrap performs its steps in the
exact strict sequence pool set → engine build → engine proxy → catalog
manager → function registry → query executor → server build → server start
→ signal → stop, and each step's recorded payload is constructed from the
predecessor's result. -/
theorem claim_C2_bootstrap_sequence (rtEnv : RuntimeEnv) (env : BootEnv) (config : Config)
    (a : Arc AnalyticEngine)
    (hp : ∀ n t, rtEnv.buildErr n t = none)
    (he : ∀ k c r, env.engineBuild k c r = Except.ok a)
    (hc : ∀ x p, env.tableBasedManagerNewErr x p = none)
    (hl : env.loadFunctionsErr = none)
    (hs : ∀ i, env.serverBuildErr i = none)
    (ht : env.serverStartErr = none) :
    run_server rtEnv env config =
      ⟨[Event.runtimeBuildAttempt "ceres-read" config.runtime.read_thread_num,
        Event.runtimeBuildAttempt "ceres-write" config.runtime.write_thread_num,
        Event.runtimeBuildAttempt "ceres-meta" config.runtime.meta_thread_num,
        Event.runtimeBuildAttempt "ceres-bg" config.runtime.background_thread_num,
        Event.engineBuildAttempt (selectedKind config) (builtRuntimes config.runtime),
        Event.engineBuilt a,
        Event.proxyCreated (engineProxyOf a),
        Event.catalogBuildAttempt a (engineProxyOf a),
        Event.catalogBuilt (catalogManagerOf a),
        Event.registryCreated,
        Event.registryLoadAttempt,
        Event.registryLoaded,
        Event.registryShared,
        Event.executorCreated,
        Event.serverBuildAttempt (serverBuilderInputs config (builtRuntimes config.runtime) a),
        Event.serverBuilt,
        Event.serverStartAttempt,
        Event.serverStarted,
        Event.signalReceived,
        Event.serverStopped],
       .ret ()⟩ := by
  rw [run_server_eq_of_pools_ok rtEnv env config hp,
    rswr_eq_success env (selectedKind config) config (builtRuntimes config.runtime) a
      (he _ _ _) (hc _ _) hl (hs _) ht]
  simp [poolAttemptsTrace, traceComplete, traceServerStart, traceServerBuild,
    traceRegistry, traceCatalog, traceEngine]

theorem claim_C2_bootstrap_sequence_witness :
    run_server rtOk envOk cfgF =
      ⟨[Event.runtimeBuildAttempt "ceres-read" cfgF.runtime.read_thread_num,
        Event.runtimeBuildAttempt "ceres-write" cfgF.runtime.write_thread_num,
        Event.runtimeBuildAttempt "ceres-meta" cfgF.runtime.meta_thread_num,
        Event.runtimeBuildAttempt "ceres-bg" cfgF.runtime.background_thread_num,
        Event.engineBuildAttempt (selectedKind cfgF) (builtRuntimes cfgF.runtime),
        Event.engineBuilt 7,
        Event.proxyCreated (engineProxyOf 7),
        Event.catalogBuildAttempt 7 (engineProxyOf 7),
        Event.catalogBuilt (catalogManagerOf 7),
        Event.registryCreated,
        Event.registryLoadAttempt,
        Event.registryLoaded,
        Event.registryShared,
        Event.executorCreated,
        Event.serverBuildAttempt (serverBuilderInputs cfgF (builtRuntimes cfgF.runtime) 7),
        Event.serverBuilt,
        Event.serverStartAttempt,
        Event.serverStarted,
        Event.signalReceived,
        Event.serverStopped],
       .ret ()⟩ :=
  claim_C2_bootstrap_sequence rtOk envOk cfgF 7 (fun _ _ => rfl) (fun _ _ _ => rfl)
    (fun _ _ => rfl) rfl (fun _ => rfl) rfl

/-- C3: every run whose trace reaches the started state ends with exactly
the suffix start → signal received → stop, and each of the three lifecycle
events occurs exactly once. -/
theorem claim_C3_start_signal_stop_once (rtEnv : RuntimeEnv) (env : BootEnv)
    (config : Config)
    (hstart : Event.serverStarted ∈ (run_server rtEnv env config).trace) :
    (∃ t0, (run_server rtEnv env config).trace =
        t0 ++ [Event.serverStarted, Event.signalReceived, Event.serverStopped])
    ∧ (run_server rtEnv env config).trace.count Event.serverStarted = 1
    ∧ (run_server rtEnv env config).trace.count Event.signalReceived = 1
    ∧ (run_server rtEnv env config).trace.count Event.serverStopped = 1 := by
  rcases run_server_cases rtEnv env config with ⟨tr, m, hb, hr⟩ | ⟨hb, hr⟩
  · rw [hr] at hstart
    rcases build_panic_trace rtEnv config.runtime tr m hb with h | h | h | h <;>
      subst h <;> simp [poolAttemptsTrace] at hstart
  · rw [hr] at hstart ⊢
    rcases rswr_cases env (selectedKind config) config (builtRuntimes config.runtime) with
      ⟨e, h1, heq⟩ | ⟨a, e, h1, h2, heq⟩ | ⟨a, e, h1, h2, h3, heq⟩ |
      ⟨a, e, h1, h2, h3, h4, heq⟩ | ⟨a, e, h1, h2, h3, h4, h5, heq⟩ |
      ⟨a, h1, h2, h3, h4, h5, heq⟩ <;> rw [heq] at hstart ⊢
    · simp [poolAttemptsTrace, traceEngine] at hstart
    · simp [poolAttemptsTrace, traceCatalog, traceEngine] at hstart
    · simp [poolAttemptsTrace, traceRegistry, traceCatalog, traceEngine] at hstart
    · simp [poolAttemptsTrace, traceServerBuild, traceRegistry, traceCatalog,
        traceEngine] at hstart
    · simp [poolAttemptsTrace, traceServerStart, traceServerBuild, traceRegistry,
        traceCatalog, traceEngine] at hstart
    · constructor
      · exact ⟨poolAttemptsTrace config.runtime ++ traceServerStart config
          (selectedKind config) (builtRuntimes config.runtime) a,
          by simp [traceComplete, List.append_assoc]⟩
      · refine ⟨?_, ?_, ?_⟩ <;>
          simp [traceComplete, traceServerStart, traceServerBuild, traceRegistry,
            traceCatalog, traceEngine, poolAttemptsTrace, List.count_append,
            List.count_cons]

theorem claim_C3_start_signal_stop_once_witness :
    (run_server rtOk envOk cfgT).trace.count Event.serverStopped = 1 :=
  (claim_C3_start_signal_stop_once rtOk envOk cfgT (by decide)).2.2.2

/-- C4: when the selected engine builder fails, the run aborts with the
engine panic message and neither the catalog manager nor the function
registry construction is ever reached. -/
theorem claim_C4_engine_failure_aborts (rtEnv : RuntimeEnv) (env : BootEnv)
    (config : Config) (e : String)
    (hp : ∀ n t, rtEnv.buildErr n t = none)
    (he : ∀ k c r, env.engineBuild k c r = Except.error e) :
    (run_server rtEnv env config).outcome =
      .panic ("Failed to setup analytic engine, err:" ++ e)
    ∧ (∀ x p, Event.catalogBuildAttempt x p ∉ (run_server rtEnv env config).trace)
    ∧ (∀ c, Event.catalogBuilt c ∉ (run_server rtEnv env config).trace)
    ∧ Event.registryCreated ∉ (run_server rtEnv env config).trace
    ∧ Event.registryLoadAttempt ∉ (run_server rtEnv env config).trace := by
  rw [run_server_eq_of_pools_ok rtEnv env config hp,
    rswr_eq_engine_err env (selectedKind config) config (builtRuntimes config.runtime) e
      (he _ _ _)]
  simp [poolAttemptsTrace, traceEngine]

theorem claim_C4_engine_failure_aborts_witness :
    (run_server rtOk envEngineFail cfgT).outcome =
      .panic ("Failed to setup analytic engine, err:" ++ "unreachable") :=
  (claim_C4_engine_failure_aborts rtOk envEngineFail cfgT "unreachable"
    (fun _ _ => rfl) (fun _ _ _ => rfl)).1

/-- C5: if the registry bulk load fails the run aborts — no server is ever
assembled — and the registry is wrapped for shared access only in runs whose
bulk load succeeded, after the load. -/
theorem claim_C5_registry_load_failure (rtEnv : RuntimeEnv) (env : BootEnv)
    (config : Config) :
    (∀ e, env.loadFunctionsErr = some e →
      (run_server rtEnv env config).outcome ≠ .ret ()
      ∧ (∀ i, Event.serverBuildAttempt i ∉ (run_server rtEnv env config).trace)
      ∧ Event.serverBuilt ∉ (run_server rtEnv env config).trace
      ∧ Event.registryShared ∉ (run_server rtEnv env config).trace)
    ∧ (Event.registryShared ∈ (run_server rtEnv env config).trace →
        env.loadFunctionsErr = none
        ∧ Event.registryLoaded ∈ (run_server rtEnv env config).trace) := by
  constructor
  · intro e hL
    rcases run_server_cases rtEnv env config with ⟨tr, m, hb, hr⟩ | ⟨hb, hr⟩
    · rw [hr]
      rcases build_panic_trace rtEnv config.runtime tr m hb with h | h | h | h <;>
        subst h <;> simp [poolAttemptsTrace]
    · rw [hr]
      rcases rswr_cases env (selectedKind config) config (builtRuntimes config.runtime) with
        ⟨e2, h1, heq⟩ | ⟨a, e2, h1, h2, heq⟩ | ⟨a, e2, h1, h2, h3, heq⟩ |
        ⟨a, e2, h1, h2, h3, h4, heq⟩ | ⟨a, e2, h1, h2, h3, h4, h5, heq⟩ |
        ⟨a, h1, h2, h3, h4, h5, heq⟩ <;> rw [heq]
      · simp [poolAttemptsTrace, traceEngine]
      · simp [poolAttemptsTrace, traceCatalog, traceEngine]
      · simp [poolAttemptsTrace, traceRegistry, traceCatalog, traceEngine]
      · rw [h3] at hL; cases hL
      · rw [h3] at hL; cases hL
      · rw [h3] at hL; cases hL
  · intro hSh
    rcases run_server_cases rtEnv env config with ⟨tr, m, hb, hr⟩ | ⟨hb, hr⟩
    · rw [hr] at hSh
      rcases build_panic_trace rtEnv config.runtime tr m hb with h | h | h | h <;>
        subst h <;> simp [poolAttemptsTrace] at hSh
    · rw [hr] at hSh ⊢
      rcases rswr_cases env (selectedKind config) config (builtRuntimes config.runtime) with
        ⟨e2, h1, heq⟩ | ⟨a, e2, h1, h2, heq⟩ | ⟨a, e2, h1, h2, h3, heq⟩ |
        ⟨a, e2, h1, h2, h3, h4, heq⟩ | ⟨a, e2, h1, h2, h3, h4, h5, heq⟩ |
        ⟨a, h1, h2, h3, h4, h5, heq⟩ <;> rw [heq] at hSh ⊢
      · simp [poolAttemptsTrace, traceEngine] at hSh
      · simp [poolAttemptsTrace, traceCatalog, traceEngine] at hSh
      · simp [poolAttemptsTrace, traceRegistry, traceCatalog, traceEngine] at hSh
      · exact ⟨h3, by simp [poolAttemptsTrace, traceServerBuild, traceRegistry,
          traceCatalog, traceEngine]⟩
      · exact ⟨h3, by simp [poolAttemptsTrace, traceServerStart, traceServerBuild,
          traceRegistry, traceCatalog, traceEngine]⟩
      · exact ⟨h3, by simp [poolAttemptsTrace, traceComplete, traceServerStart,
          traceServerBuild, traceRegistry, traceCatalog, traceEngine]⟩

theorem claim_C5_registry_load_failure_witness :
    Event.registryShared ∉ (run_server rtOk envRegistryFail cfgF).trace :=
  ((claim_C5_registry_load_failure rtOk envRegistryFail cfgF).1 "boom" rfl).2.2.2

/-- C6: startup errors are fatal and unrecoverable: no stage is ever
retried; a run that panics never reached the started state; and every panic
message names the failed stage and carries the underlying oracle error. -/
theorem claim_C6_fatal_error_propagation (rtEnv : RuntimeEnv) (env : BootEnv)
    (config : Config) :
    noRetry (run_server rtEnv env config).trace
    ∧ (∀ m, (run_server rtEnv env config).outcome = .panic m →
        Event.serverStarted ∉ (run_server rtEnv env config).trace)
    ∧ (∀ m, (run_server rtEnv env config).outcome = .panic m → ∃ e,
        (m = "Failed to create runtime, err:" ++ e ∧ ∃ n k, rtEnv.buildErr n k = some e)
      ∨ (m = "Failed to setup analytic engine, err:" ++ e ∧
          ∃ k r, env.engineBuild k config.analytic r = .error e)
      ∨ (m = "Failed to create catalog manager, err:" ++ e ∧
          ∃ x p, env.tableBasedManagerNewErr x p = some e)
      ∨ (m = "Failed to create function registry, err:" ++ e ∧
          env.loadFunctionsErr = some e)
      ∨ (m = "Failed to create server, err:" ++ e ∧ ∃ i, env.serverBuildErr i = some e)
      ∨ (m = "Failed to start server,, err:" ++ e ∧ env.serverStartErr = some e)) := by
  refine ⟨noRetry_run_server rtEnv env config, ?_, ?_⟩
  · intro m hm
    rcases run_server_cases rtEnv env config with ⟨tr, m2, hb, hr⟩ | ⟨hb, hr⟩
    · rw [hr]
      rcases build_panic_trace rtEnv config.runtime tr m2 hb with h | h | h | h <;>
        subst h <;> simp [poolAttemptsTrace]
    · rw [hr] at hm ⊢
      rcases rswr_cases env (selectedKind config) config (builtRuntimes config.runtime) with
        ⟨e, h1, heq⟩ | ⟨a, e, h1, h2, heq⟩ | ⟨a, e, h1, h2, h3, heq⟩ |
        ⟨a, e, h1, h2, h3, h4, heq⟩ | ⟨a, e, h1, h2, h3, h4, h5, heq⟩ |
        ⟨a, h1, h2, h3, h4, h5, heq⟩ <;> rw [heq] at hm ⊢
      · simp [poolAttemptsTrace, traceEngine]
      · simp [poolAttemptsTrace, traceCatalog, traceEngine]
      · simp [poolAttemptsTrace, traceRegistry, traceCatalog, traceEngine]
      · simp [poolAttemptsTrace, traceServerBuild, traceRegistry, traceCatalog, traceEngine]
      · simp [poolAttemptsTrace, traceServerStart, traceServerBuild, traceRegistry,
          traceCatalog, traceEngine]
      · simp at hm
  · intro m hm
    rcases build_engine_runtimes_cases rtEnv config.runtime with ⟨e, h1, heq⟩ |
      ⟨e, h1, h2, heq⟩ | ⟨e, h1, h2, h3, heq⟩ | ⟨e, h1, h2, h3, h4, heq⟩ |
      ⟨h1, h2, h3, h4, heq⟩
    · have hr : run_server rtEnv env config =
          ⟨(poolAttemptsTrace config.runtime).take 1,
           .panic ("Failed to create runtime, err:" ++ e)⟩ := by
        simp [run_server, heq]
      rw [hr] at hm
      simp only [PanicOr.panic.injEq] at hm
      exact ⟨e, Or.inl ⟨hm.symm, "ceres-read", config.runtime.read_thread_num, h1⟩⟩
    · have hr : run_server rtEnv env config =
          ⟨(poolAttemptsTrace config.runtime).take 2,
           .panic ("Failed to create runtime, err:" ++ e)⟩ := by
        simp [run_server, heq]
      rw [hr] at hm
      simp only [PanicOr.panic.injEq] at hm
      exact ⟨e, Or.inl ⟨hm.symm, "ceres-write", config.runtime.write_thread_num, h2⟩⟩
    · have hr : run_server rtEnv env config =
          ⟨(poolAttemptsTrace config.runtime).take 3,
           .panic ("Failed to create runtime, err:" ++ e)⟩ := by
        simp [run_server, heq]
      rw [hr] at hm
      simp only [PanicOr.panic.injEq] at hm
      exact ⟨e, Or.inl ⟨hm.symm, "ceres-meta", config.runtime.meta_thread_num, h3⟩⟩
    · have hr : run_server rtEnv env config =
          ⟨poolAttemptsTrace config.runtime,
           .panic ("Failed to create runtime, err:" ++ e)⟩ := by
        simp [run_server, heq]
      rw [hr] at hm
      simp only [PanicOr.panic.injEq] at hm
      exact ⟨e, Or.inl ⟨hm.symm, "ceres-bg", config.runtime.background_thread_num, h4⟩⟩
    · have hr : run_server rtEnv env config =
          ⟨poolAttemptsTrace config.runtime ++
             (run_server_with_runtimes env (selectedKind config) config
               (builtRuntimes config.runtime)).trace,
           (run_server_with_runtimes env (selectedKind config) config
             (builtRuntimes config.runtime)).outcome⟩ := by
        rcases run_server_cases rtEnv env config with ⟨tr, m2, hb, hr⟩ | ⟨hb, hr⟩
        · rw [heq] at hb; simp [Prod.ext_iff] at hb
        · exact hr
      rw [hr] at hm
      rcases rswr_cases env (selectedKind config) config (builtRuntimes config.runtime) with
        ⟨e, hh1, heq2⟩ | ⟨a, e, hh1, hh2, heq2⟩ | ⟨a, e, hh1, hh2, hh3, heq2⟩ |
        ⟨a, e, hh1, hh2, hh3, hh4, heq2⟩ | ⟨a, e, hh1, hh2, hh3, hh4, hh5, heq2⟩ |
        ⟨a, hh1, hh2, hh3, hh4, hh5, heq2⟩ <;> rw [heq2] at hm <;>
        simp only [PanicOr.panic.injEq] at hm
      · exact ⟨e, Or.inr (Or.inl ⟨hm.symm, _, _, hh1⟩)⟩
      · exact ⟨e, Or.inr (Or.inr (Or.inl ⟨hm.symm, _, _, hh2⟩))⟩
      · exact ⟨e, Or.inr (Or.inr (Or.inr (Or.inl ⟨hm.symm, hh3⟩)))⟩
      · exact ⟨e, Or.inr (Or.inr (Or.inr (Or.inr (Or.inl ⟨hm.symm, _, hh4⟩))))⟩
      · exact ⟨e, Or.inr (Or.inr (Or.inr (Or.inr (Or.inr ⟨hm.symm, hh5⟩))))⟩
      · cases hm

theorem claim_C6_fatal_error_propagation_witness :
    Event.serverStarted ∉ (run_server rtOk envStartFail cfgF).trace ∧
    (∃ e,
        ("Failed to start server,, err:bind" = "Failed to create runtime, err:" ++ e ∧
          ∃ n k, rtOk.buildErr n k = some e)
      ∨ ("Failed to start server,, err:bind" = "Failed to setup analytic engine, err:" ++ e ∧
          ∃ k r, envStartFail.engineBuild k cfgF.analytic r = .error e)
      ∨ ("Failed to start server,, err:bind" = "Failed to create catalog manager, err:" ++ e ∧
          ∃ x p, envStartFail.tableBasedManagerNewErr x p = some e)
      ∨ ("Failed to start server,, err:bind" = "Failed to create function registry, err:" ++ e ∧
          envStartFail.loadFunctionsErr = some e)
      ∨ ("Failed to start server,, err:bind" = "Failed to create server, err:" ++ e ∧
          ∃ i, envStartFail.serverBuildErr i = some e)
      ∨ ("Failed to start server,, err:bind" = "Failed to start server,, err:" ++ e ∧
          envStartFail.serverStartErr = some e)) :=
  ⟨(claim_C6_fatal_error_propagation rtOk envStartFail cfgF).2.1
      "Failed to start server,, err:bind" (by decide),
   (claim_C6_fatal_error_propagation rtOk envStartFail cfgF).2.2
      "Failed to start server,, err:bind" (by decide)⟩

/-- C7: building the pool set yields exactly the four pools read, write,
meta and background, each with its own configured worker-thread count, its
own diagnostic name and all I/O and timer facilities enabled; and it fails
fatally when any of the four pool allocations fails. -/
theorem claim_C7_runtime_pool_set (rtEnv : RuntimeEnv) (cfg : RuntimeConfig) :
    (∀ rts, (build_engine_runtimes rtEnv cfg).2 = .ret rts →
      rts.read_runtime =
        { name := "ceres-read", worker_threads := cfg.read_thread_num, enable_all := true }
      ∧ rts.write_runtime =
        { name := "ceres-write", worker_threads := cfg.write_thread_num, enable_all := true }
      ∧ rts.meta_runtime =
        { name := "ceres-meta", worker_threads := cfg.meta_thread_num, enable_all := true }
      ∧ rts.bg_runtime =
        { name := "ceres-bg", worker_threads := cfg.background_thread_num,
          enable_all := true })
    ∧ (∀ e, (rtEnv.buildErr "ceres-read" cfg.read_thread_num = some e
          ∨ rtEnv.buildErr "ceres-write" cfg.write_thread_num = some e
          ∨ rtEnv.buildErr "ceres-meta" cfg.meta_thread_num = some e
          ∨ rtEnv.buildErr "ceres-bg" cfg.background_thread_num = some e) →
        ∃ m, (build_engine_runtimes rtEnv cfg).2 = .panic m) := by
  constructor
  · intro rts hret
    rcases build_engine_runtimes_cases rtEnv cfg with ⟨e, h1, heq⟩ | ⟨e, h1, h2, heq⟩ |
      ⟨e, h1, h2, h3, heq⟩ | ⟨e, h1, h2, h3, h4, heq⟩ | ⟨h1, h2, h3, h4, heq⟩ <;>
      rw [heq] at hret <;> simp at hret
    subst hret
    exact ⟨rfl, rfl, rfl, rfl⟩
  · intro e hdisj
    rcases build_engine_runtimes_cases rtEnv cfg with ⟨e2, h1, heq⟩ | ⟨e2, h1, h2, heq⟩ |
      ⟨e2, h1, h2, h3, heq⟩ | ⟨e2, h1, h2, h3, h4, heq⟩ | ⟨h1, h2, h3, h4, heq⟩
    · exact ⟨_, by rw [heq]⟩
    · exact ⟨_, by rw [heq]⟩
    · exact ⟨_, by rw [heq]⟩
    · exact ⟨_, by rw [heq]⟩
    · rcases hdisj with hd | hd | hd | hd <;>
        [rw [h1] at hd; rw [h2] at hd; rw [h3] at hd; rw [h4] at hd] <;> cases hd

theorem claim_C7_runtime_pool_set_witness :
    ((builtRuntimes cfgF.runtime).read_runtime =
      { name := "ceres-read", worker_threads := cfgF.runtime.read_thread_num,
        enable_all := true })
    ∧ (∃ m, (build_engine_runtimes rtMetaFail cfgF.runtime).2 = .panic m) :=
  ⟨((claim_C7_runtime_pool_set rtOk cfgF.runtime).1 (builtRuntimes cfgF.runtime)
      (by decide)).1,
   (claim_C7_runtime_pool_set rtMetaFail cfgF.runtime).2 "oom"
      (Or.inr (Or.inr (Or.inl (by decide))))⟩

/-- C8: the engine handle inside the proxy handed to the server, the engine
handle backing the catalog manager, and the handle recorded as built are all
the same shared handle; the catalog manager's proxy is the very proxy handed
to the server; and the pool set handed to the server builder is the one the
engine builder received. -/
theorem claim_C8_shared_engine_and_pools (rtEnv : RuntimeEnv) (env : BootEnv)
    (config : Config) (i : ServerInputs)
    (hmem : Event.serverBuildAttempt i ∈ (run_server rtEnv env config).trace) :
    Event.engineBuilt i.table_engine.analytic ∈ (run_server rtEnv env config).trace
    ∧ i.catalog_manager.inner.engine = i.table_engine.analytic
    ∧ i.catalog_manager.inner.proxy = i.table_engine
    ∧ Event.engineBuildAttempt
        (if config.analytic.obkv_wal.enable then EngineBuilderKind.replicated
         else EngineBuilderKind.rocks) i.runtimes
        ∈ (run_server rtEnv env config).trace := by
  rcases run_server_cases rtEnv env config with ⟨tr, m, hb, hr⟩ | ⟨hb, hr⟩
  · rw [hr] at hmem
    rcases build_panic_trace rtEnv config.runtime tr m hb with h | h | h | h <;>
      subst h <;> simp [poolAttemptsTrace] at hmem
  · rw [hr] at hmem ⊢
    rcases rswr_cases env (selectedKind config) config (builtRuntimes config.runtime) with
      ⟨e, h1, heq⟩ | ⟨a, e, h1, h2, heq⟩ | ⟨a, e, h1, h2, h3, heq⟩ |
      ⟨a, e, h1, h2, h3, h4, heq⟩ | ⟨a, e, h1, h2, h3, h4, h5, heq⟩ |
      ⟨a, h1, h2, h3, h4, h5, heq⟩ <;> rw [heq] at hmem ⊢
    · simp [poolAttemptsTrace, traceEngine] at hmem
    · simp [poolAttemptsTrace, traceCatalog, traceEngine] at hmem
    · simp [poolAttemptsTrace, traceRegistry, traceCatalog, traceEngine] at hmem
    · simp [poolAttemptsTrace, traceServerBuild, traceRegistry, traceCatalog,
        traceEngine] at hmem
      subst hmem
      refine ⟨?_, rfl, rfl, ?_⟩ <;>
        simp [poolAttemptsTrace, traceServerBuild, traceRegistry, traceCatalog,
          traceEngine, serverBuilderInputs, catalogManagerOf, engineProxyOf, selectedKind]
    · simp [poolAttemptsTrace, traceServerStart, traceServerBuild, traceRegistry,
        traceCatalog, traceEngine] at hmem
      subst hmem
      refine ⟨?_, rfl, rfl, ?_⟩ <;>
        simp [poolAttemptsTrace, traceServerStart, traceServerBuild, traceRegistry,
          traceCatalog, traceEngine, serverBuilderInputs, catalogManagerOf, engineProxyOf,
          selectedKind]
    · simp [poolAttemptsTrace, traceComplete, traceServerStart, traceServerBuild,
        traceRegistry, traceCatalog, traceEngine] at hmem
      subst hmem
      refine ⟨?_, rfl, rfl, ?_⟩ <;>
        simp [poolAttemptsTrace, traceComplete, traceServerStart, traceServerBuild,
          traceRegistry, traceCatalog, traceEngine, serverBuilderInputs, catalogManagerOf,
          engineProxyOf, selectedKind]

theorem claim_C8_shared_engine_and_pools_witness :
    (serverBuilderInputs cfgF (builtRuntimes cfgF.runtime) 7).catalog_manager.inner.engine
      = (serverBuilderInputs cfgF (builtRuntimes cfgF.runtime) 7).table_engine.analytic :=
  (claim_C8_shared_engine_and_pools rtOk envOk cfgF
    (serverBuilderInputs cfgF (builtRuntimes cfgF.runtime) 7) (by decide)).2.1

/-- C9: `setup_log` returns the runtime log level switch when the log
initialiser succeeds, and panics — with the `expect` message
"Failed to init log." followed by the underlying error — when it fails,
never returning the error to the caller. -/
theorem claim_C9_setup_log (env : LogEnv) (config : Config) :
    (∀ l, env.init_log config = .ok l → setup_log env config = .ret l)
    ∧ (∀ e, env.init_log config = .error e →
        setup_log env config = .panic ("Failed to init log.: " ++ e)
        ∧ ∃ s, setup_log env config = .panic ("Failed to init log." ++ s)) := by
  constructor
  · intro l h
    simp [setup_log, h]
  · intro e h
    refine ⟨by simp [setup_log, h], ⟨": " ++ e, ?_⟩⟩
    simp only [setup_log, h]
    rw [show ("Failed to init log.: " : String) = "Failed to init log." ++ ": " from by decide,
      String.append_assoc]

theorem claim_C9_setup_log_witness :
    setup_log logOk cfgF = .ret { level := "info" }
    ∧ setup_log logFail cfgF = .panic ("Failed to init log.: " ++ "io") :=
  ⟨(claim_C9_setup_log logOk cfgF).1 { level := "info" } rfl,
   ((claim_C9_setup_log logFail cfgF).2 "io" rfl).1⟩

/-- C10: `setup_tracing` always initialises the tracing file appender with
rotation `NEVER`; only the file name, directory and level come from the
configuration. -/
theorem claim_C10_tracing_rotation_never (config : Config) :
    (setup_tracing config).rotation = Rotation.NEVER
    ∧ (setup_tracing config).log_name = config.tracing_log_name
    ∧ (setup_tracing config).log_dir = config.tracing_log_dir
    ∧ (setup_tracing config).level = config.tracing_level :=
  ⟨rfl, rfl, rfl, rfl⟩

end CeresSetup
